import Mathlib

/-!
Verification of the multimodal session-aggregation and scoring engine of the
Mental-Health-Multimodal-Assessment repository.

The embedding translates, from the Python sources:
  * the keyword-cascade response scorer and severity classifier of
    `app.py` (`process_voice_assessment_submission`, `generate_recommendations`);
  * the positive/negative keyword counters of `app.py` (`handle_analyze_text`);
  * the vocal-timeline aggregation of `aggregate_vocal_emotions`
    (Counter-based most-common label);
  * the cardiovascular pipeline of `cardiovascular.py`
    (`load_heart_rate_data`, `calculate_hrv_metrics`,
    `analyze_cardiovascular_stress`).

Python strings are modelled as Lean `String`; Python's `in` operator on
strings is the substring test `isSubChars`; `str.lower` is `lowerStr`.
Python floats are modelled as exact rationals where the code only compares
and adds (sentiment polarity), and as real numbers where square roots occur
(the HRV metrics).  Fallible code returning `None` is modelled with `Option`.
-/

/-- Boolean test that the first character list is a prefix of the second. -/
def isPrefixChars : List Char → List Char → Bool
  | [], _ => true
  | _ :: _, [] => false
  | a :: as, b :: bs => a == b && isPrefixChars as bs

/-- Boolean test that `w` occurs as a contiguous substring of the second
list; this is Python's `w in t` for strings. -/
def isSubChars (w : List Char) : List Char → Bool
  | [] => isPrefixChars w []
  | t :: ts => isPrefixChars w (t :: ts) || isSubChars w ts

/-- Python `str.lower`, character by character. -/
def lowerStr (s : String) : String := String.mk (s.data.map Char.toLower)

/-- Python `w in t` on strings: `w` occurs as a substring of `t`. -/
def containsWord (t w : String) : Bool := isSubChars w.data t.data

/-! ## Response scorer (`app.py`, `process_voice_assessment_submission`) -/

/-- Keyword bucket scored 0 in `process_voice_assessment_submission`. -/
def bucket0 : List String := ["never", "not at all", "rarely", "no", "none"]

/-- Keyword bucket scored 1. -/
def bucket1 : List String := ["sometimes", "occasionally", "a few", "once"]

/-- Keyword bucket scored 2. -/
def bucket2 : List String := ["often", "frequently", "many", "several"]

/-- Keyword bucket scored 3. -/
def bucket3 : List String := ["always", "every day", "constantly", "all the time", "daily"]

/-- Python `any(word in response_text for word in bucket)`. -/
def matchesBucket (response_text : String) (bucket : List String) : Bool :=
  bucket.any (fun word => containsWord response_text word)

/-- Keyword-priority scoring of one free-text answer, translated from the
body of the loop in `process_voice_assessment_submission` (app.py lines
280-300).  The external sentiment capability (`analyze_sentiment`) is a
parameter `pol` giving the polarity of the lowered text. -/
def scoreResponse (pol : String → ℚ) (text : String) : ℕ :=
  let response_text := lowerStr text
  if matchesBucket response_text bucket0 then 0
  else if matchesBucket response_text bucket1 then 1
  else if matchesBucket response_text bucket2 then 2
  else if matchesBucket response_text bucket3 then 3
  else
    let polarity := pol response_text
    if polarity < -0.3 then 2
    else if polarity > 0.3 then 0
    else 1

/-! ## Severity classifier (`app.py`, `generate_recommendations`) -/

/-- Severity banding of a PHQ-9 total, from `generate_recommendations`
(app.py lines 524-534). -/
def classify (total : ℤ) : String :=
  if total ≤ 4 then "None-Minimal"
  else if total ≤ 9 then "Mild"
  else if total ≤ 14 then "Moderate"
  else if total ≤ 19 then "Moderately Severe"
  else "Severe"

/-! ## Keyword counters (`app.py`, `handle_analyze_text`) -/

/-- The positive word list of `handle_analyze_text` (app.py line 473). -/
def positive_words : List String :=
  ["good", "happy", "better", "enjoy", "love", "great", "excellent",
   "wonderful", "positive", "excited", "glad", "thankful"]

/-- The negative word list of `handle_analyze_text` (app.py line 474),
verbatim: the entry "tired" occurs twice in the source list. -/
def negative_words : List String :=
  ["bad", "sad", "worse", "hate", "terrible", "awful", "depressed",
   "hopeless", "never", "nothing", "nobody", "tired", "exhausted",
   "lonely", "worthless", "stupid", "low", "tired", "despise", "alone"]

/-- The negative word list as the spec states it: each of the nineteen
distinct words exactly once. -/
def negative_words_spec : List String :=
  ["bad", "sad", "worse", "hate", "terrible", "awful", "depressed",
   "hopeless", "never", "nothing", "nobody", "tired", "exhausted",
   "lonely", "worthless", "stupid", "low", "despise", "alone"]

/-- Python `sum(1 for word in ws if word in text.lower())`. -/
def keyword_count (ws : List String) (text : String) : ℕ :=
  ws.countP (fun word => containsWord (lowerStr text) word)

/-- Positive keyword count emitted by `handle_analyze_text`. -/
def pos_count (text : String) : ℕ := keyword_count positive_words text

/-- Negative keyword count emitted by `handle_analyze_text`. -/
def neg_count (text : String) : ℕ := keyword_count negative_words text

/-! ## Theorems for claims C1, C2, C6, C8 -/

/-- C1: for every response text, `scoreResponse` checks the four fixed
keyword buckets by case-insensitive substring match strictly in priority
order 0,1,2,3 and returns the value of the first bucket that matches, even
if a later bucket's words also appear; in particular
`scoreResponse "I never feel sad" = 0` whatever the sentiment capability
returns. -/
theorem scoreResponse_bucket_priority :
    (∀ (pol : String → ℚ) (text : String),
      (matchesBucket (lowerStr text) bucket0 = true → scoreResponse pol text = 0) ∧
      (matchesBucket (lowerStr text) bucket0 = false →
        matchesBucket (lowerStr text) bucket1 = true → scoreResponse pol text = 1) ∧
      (matchesBucket (lowerStr text) bucket0 = false →
        matchesBucket (lowerStr text) bucket1 = false →
        matchesBucket (lowerStr text) bucket2 = true → scoreResponse pol text = 2) ∧
      (matchesBucket (lowerStr text) bucket0 = false →
        matchesBucket (lowerStr text) bucket1 = false →
        matchesBucket (lowerStr text) bucket2 = false →
        matchesBucket (lowerStr text) bucket3 = true → scoreResponse pol text = 3)) ∧
    (∀ pol : String → ℚ, scoreResponse pol "I never feel sad" = 0) := by
  constructor
  · intro pol text
    refine ⟨fun h0 => ?_, fun h0 h1 => ?_, fun h0 h1 h2 => ?_, fun h0 h1 h2 h3 => ?_⟩ <;>
      simp [scoreResponse, h0]
    · simp [h1]
    · simp [h1, h2]
    · simp [h1, h2, h3]
  · intro pol
    have h0 : matchesBucket (lowerStr "I never feel sad") bucket0 = true := by decide
    simp [scoreResponse, h0]

/-- Witness for C1: the bucket-0 hypothesis holds concretely for
"I never feel sad" and the theorem then evaluates the score to 0. -/
theorem scoreResponse_bucket_priority_witness :
    scoreResponse (fun _ => 0) "I never feel sad" = 0 :=
  (scoreResponse_bucket_priority.1 (fun _ => 0) "I never feel sad").1 (by decide)

/-- C2: `classify` maps a total to its severity band by the fixed strictly
increasing thresholds 4, 9, 14, 19, together with the stated boundary
values. -/
theorem classify_bands :
    (∀ total : ℤ,
      (total ≤ 4 → classify total = "None-Minimal") ∧
      (5 ≤ total → total ≤ 9 → classify total = "Mild") ∧
      (10 ≤ total → total ≤ 14 → classify total = "Moderate") ∧
      (15 ≤ total → total ≤ 19 → classify total = "Moderately Severe") ∧
      (20 ≤ total → classify total = "Severe")) ∧
    classify 4 = "None-Minimal" ∧ classify 5 = "Mild" ∧ classify 9 = "Mild" ∧
    classify 10 = "Moderate" ∧ classify 14 = "Moderate" ∧
    classify 15 = "Moderately Severe" ∧ classify 19 = "Moderately Severe" ∧
    classify 20 = "Severe" := by
  refine ⟨fun total => ?_, by decide, by decide, by decide, by decide, by decide,
    by decide, by decide, by decide⟩
  unfold classify
  split_ifs with h1 h2 h3 h4 <;>
    refine ⟨fun ha => ?_, fun ha hb => ?_, fun ha hb => ?_, fun ha hb => ?_, fun ha => ?_⟩ <;>
    first
      | rfl
      | omega

/-- Witness for C2: the theorem applied at total 12 places it in the
Moderate band. -/
theorem classify_bands_witness : classify 12 = "Moderate" :=
  (classify_bands.1 12).2.2.1 (by decide) (by decide)

/-- Counterexample for C6: on "I feel alright, nothing special" the code
does not reach the sentiment fallback at all, because bucket 0's keyword
"no" matches as a substring of "nothing"; with the sentiment capability
returning polarity 0.0 the score is 0, not 1 as the claim states. -/
theorem scoreResponse_alright_counterexample :
    scoreResponse (fun _ => 0) "I feel alright, nothing special" = 0 ∧
    scoreResponse (fun _ => 0) "I feel alright, nothing special" ≠ 1 := by decide

/-- C6 amended: "I feel alright, nothing special" matches bucket 0 (its
keyword "no" occurs inside "nothing") and therefore scores 0 for every
polarity; the fallback branch (polarity < -0.3 gives 2, polarity > 0.3
gives 0, otherwise 1) applies only to texts matching no bucket. -/
theorem scoreResponse_alright_amended :
    (∀ pol : String → ℚ, scoreResponse pol "I feel alright, nothing special" = 0) ∧
    (∀ (pol : String → ℚ) (text : String),
      matchesBucket (lowerStr text) bucket0 = false →
      matchesBucket (lowerStr text) bucket1 = false →
      matchesBucket (lowerStr text) bucket2 = false →
      matchesBucket (lowerStr text) bucket3 = false →
      scoreResponse pol text =
        (if pol (lowerStr text) < -0.3 then 2
         else if pol (lowerStr text) > 0.3 then 0
         else 1)) := by
  constructor
  · intro pol
    have h0 : matchesBucket (lowerStr "I feel alright, nothing special") bucket0 = true := by
      decide
    simp [scoreResponse, h0]
  · intro pol text h0 h1 h2 h3
    simp [scoreResponse, h0, h1, h2, h3]

/-- Witness for C6 amended: a text matching no bucket with polarity 0.0
scores 1 through the fallback. -/
theorem scoreResponse_alright_amended_witness :
    scoreResponse (fun _ => 0) "zzz" = 1 := by
  have h := scoreResponse_alright_amended.2 (fun _ => 0) "zzz"
    (by decide) (by decide) (by decide) (by decide)
  rw [h]
  norm_num

/-- Counterexample for C8: the code's negative list contains "tired" twice,
so the text "tired" gets negative count 2, while the count over the spec's
nineteen-word set is 1. -/
theorem neg_count_tired_counterexample :
    neg_count "tired" = 2 ∧ keyword_count negative_words_spec "tired" = 1 := by decide

/-- C8 amended: the negative keyword count is the count over the spec's
nineteen-word set plus one extra whenever "tired" occurs in the text
(because the source list repeats "tired"); the positive count is exactly
the count over the spec's twelve-word positive set; in particular a text
containing "tired" and no other listed word has negative count 2. -/
theorem neg_count_amended :
    (∀ text : String,
      neg_count text = keyword_count negative_words_spec text +
        (if containsWord (lowerStr text) "tired" then 1 else 0)) ∧
    (∀ text : String, pos_count text = keyword_count positive_words text) ∧
    neg_count "tired" = 2 := by
  refine ⟨fun text => ?_, fun text => rfl, by decide⟩
  simp only [neg_count, keyword_count, negative_words, negative_words_spec,
    List.countP_cons, List.countP_nil]
  by_cases h : containsWord (lowerStr text) "tired" = true <;> simp [h] <;> ring

/-! ## Vocal timeline aggregation (`aggregate_vocal_emotions`) -/

/-- Keys of a Python `Counter` built from a list: the distinct elements in
first-occurrence order (CPython dicts preserve insertion order). -/
def keysInOrder : List String → List String
  | [] => []
  | x :: xs => x :: (keysInOrder xs).filter (fun y => y != x)

/-- Translation of `aggregate_vocal_emotions` (vocal and linguistic
module): `Counter(vocal_timeline).most_common(1)[0][0]` for a non-empty
timeline, `"neutral"` otherwise.  `most_common(1)` is the head of the
stable descending sort of the counter items by count, i.e. the first key
in counter order whose count is never strictly exceeded later; the fold
below computes exactly that key. -/
def aggregate_vocal_emotions (vocal_timeline : List String) : String :=
  match keysInOrder vocal_timeline with
  | [] => "neutral"
  | k :: ks =>
      ks.foldl (fun b k2 => if vocal_timeline.count b < vocal_timeline.count k2 then k2 else b) k

lemma mem_keysInOrder {x : String} : ∀ {l : List String}, x ∈ keysInOrder l ↔ x ∈ l := by
  intro l
  induction l with
  | nil => simp [keysInOrder]
  | cons a l ih =>
    simp only [keysInOrder, List.mem_cons, List.mem_filter, bne_iff_ne, ih]
    by_cases hx : x = a <;> simp [hx]

lemma pairwise_indexOf_keysInOrder :
    ∀ l : List String, (keysInOrder l).Pairwise (fun a b => l.indexOf a < l.indexOf b) := by
  intro l
  induction l with
  | nil => simp [keysInOrder]
  | cons a l ih =>
    simp only [keysInOrder]
    refine List.Pairwise.cons ?_ ?_
    · intro b hb
      have hbne : b ≠ a := by simpa [bne_iff_ne] using List.of_mem_filter hb
      rw [List.indexOf_cons_self, List.indexOf_cons_ne _ (Ne.symm hbne)]
      omega
    · have h1 := (ih.filter (fun y => y != a))
      refine h1.imp_of_mem ?_
      intro x y hx hy hxy
      have hxa : x ≠ a := by simpa [bne_iff_ne] using List.of_mem_filter hx
      have hya : y ≠ a := by simpa [bne_iff_ne] using List.of_mem_filter hy
      rw [List.indexOf_cons_ne _ (Ne.symm hxa), List.indexOf_cons_ne _ (Ne.symm hya)]
      omega

lemma foldl_best (f : String → ℕ) :
    ∀ (ks : List String) (b r : String),
      r = ks.foldl (fun acc k => if f acc < f k then k else acc) b →
      (r = b ∧ ∀ x ∈ ks, f x ≤ f b) ∨
      (∃ ks₁ ks₂, ks = ks₁ ++ r :: ks₂ ∧ f b < f r ∧
        (∀ x ∈ ks₁, f x < f r) ∧ (∀ x ∈ ks₂, f x ≤ f r)) := by
  intro ks
  induction ks with
  | nil =>
    intro b r hr
    exact Or.inl ⟨hr, by simp⟩
  | cons k ks ih =>
    intro b r hr
    rw [List.foldl_cons] at hr
    by_cases hk : f b < f k
    · rw [if_pos hk] at hr
      rcases ih k r hr with ⟨hrk, hall⟩ | ⟨ks₁, ks₂, hsplit, hlt, hfirst, hrest⟩
      · refine Or.inr ⟨[], ks, by rw [hrk]; rfl, by rw [hrk]; exact hk, by simp, ?_⟩
        intro x hx
        rw [hrk]
        exact hall x hx
      · refine Or.inr ⟨k :: ks₁, ks₂, by rw [hsplit]; rfl, lt_trans hk hlt, ?_, hrest⟩
        intro x hx
        rcases List.mem_cons.mp hx with rfl | hx'
        · omega
        · exact hfirst x hx'
    · rw [if_neg hk] at hr
      rcases ih b r hr with ⟨hrb, hall⟩ | ⟨ks₁, ks₂, hsplit, hlt, hfirst, hrest⟩
      · refine Or.inl ⟨hrb, ?_⟩
        intro x hx
        rcases List.mem_cons.mp hx with rfl | hx'
        · omega
        · exact hall x hx'
      · refine Or.inr ⟨k :: ks₁, ks₂, by rw [hsplit]; rfl, by omega, ?_, hrest⟩
        intro x hx
        rcases List.mem_cons.mp hx with rfl | hx'
        · omega
        · exact hfirst x hx'

lemma aggregate_cons_spec (t : String) (ts : List String) :
    aggregate_vocal_emotions (t :: ts) ∈ (t :: ts) ∧
    (∀ x ∈ t :: ts, (t :: ts).count x ≤ (t :: ts).count (aggregate_vocal_emotions (t :: ts))) ∧
    (∀ x ∈ t :: ts, (t :: ts).count x = (t :: ts).count (aggregate_vocal_emotions (t :: ts)) →
      (t :: ts).indexOf (aggregate_vocal_emotions (t :: ts)) ≤ (t :: ts).indexOf x) := by
  have hmem : ∀ x : String,
      x ∈ t :: (keysInOrder ts).filter (fun y => y != t) ↔ x ∈ t :: ts := by
    intro x
    have h1 : x ∈ keysInOrder (t :: ts) ↔ x ∈ t :: ts := mem_keysInOrder
    exact h1
  have hpw : (t :: (keysInOrder ts).filter (fun y => y != t)).Pairwise
      (fun a b => (t :: ts).indexOf a < (t :: ts).indexOf b) :=
    pairwise_indexOf_keysInOrder (t :: ts)
  have hb := foldl_best (fun s => (t :: ts).count s)
    ((keysInOrder ts).filter (fun y => y != t)) t (aggregate_vocal_emotions (t :: ts)) rfl
  rcases hb with ⟨hrt, hall⟩ | ⟨ks₁, ks₂, hsplit, hlt, hfirst, hrest⟩
  · refine ⟨by rw [hrt]; exact List.mem_cons_self t ts, ?_, ?_⟩
    · intro x hx
      rw [hrt]
      rcases List.mem_cons.mp ((hmem x).mpr hx) with rfl | hxF
      · exact le_refl _
      · exact hall x hxF
    · intro x hx hcount
      rw [hrt] at hcount ⊢
      by_cases hxt : x = t
      · rw [hxt]
      · have hxF : x ∈ (keysInOrder ts).filter (fun y => y != t) := by
          rcases List.mem_cons.mp ((hmem x).mpr hx) with h | h
          · exact absurd h hxt
          · exact h
        have hrel := List.rel_of_pairwise_cons hpw hxF
        exact le_of_lt hrel
  · have hrF : aggregate_vocal_emotions (t :: ts) ∈ (keysInOrder ts).filter (fun y => y != t) := by
      rw [hsplit]
      exact List.mem_append_right ks₁ (List.mem_cons_self _ ks₂)
    refine ⟨(hmem _).mp (List.mem_cons_of_mem t hrF), ?_, ?_⟩
    · intro x hx
      rcases List.mem_cons.mp ((hmem x).mpr hx) with rfl | hxF
      · exact le_of_lt hlt
      · rw [hsplit] at hxF
        rcases List.mem_append.mp hxF with hx1 | hx2
        · exact le_of_lt (hfirst x hx1)
        · rcases List.mem_cons.mp hx2 with hxr | hx2'
          · rw [hxr]
          · exact hrest x hx2'
    · intro x hx hcount
      by_cases hxr : x = aggregate_vocal_emotions (t :: ts)
      · rw [hxr]
      · rcases List.mem_cons.mp ((hmem x).mpr hx) with rfl | hxF
        · exact absurd hcount (ne_of_lt hlt)
        · rw [hsplit] at hxF
          rcases List.mem_append.mp hxF with hx1 | hx2
          · exact absurd hcount (ne_of_lt (hfirst x hx1))
          · rcases List.mem_cons.mp hx2 with hxr2 | hx2'
            · exact absurd hxr2 hxr
            · have htail : ((keysInOrder ts).filter (fun y => y != t)).Pairwise
                  (fun a b => (t :: ts).indexOf a < (t :: ts).indexOf b) :=
                (List.pairwise_cons.mp hpw).2
              rw [hsplit] at htail
              have hpw2 := htail.sublist
                (List.sublist_append_right ks₁ (aggregate_vocal_emotions (t :: ts) :: ks₂))
              have hrel := List.rel_of_pairwise_cons hpw2 hx2'
              exact le_of_lt hrel

/-- C7: `aggregate_vocal_emotions` returns the sentinel "neutral" for the
empty timeline; for every non-empty timeline the returned label occurs in
the timeline, its occurrence count is maximal, and among equally frequent
labels it is the first observed (minimal first-occurrence index); in
particular the timeline sad, sad, happy aggregates to "sad". -/
theorem aggregate_vocal_most_frequent :
    aggregate_vocal_emotions [] = "neutral" ∧
    (∀ tl : List String, tl ≠ [] →
      aggregate_vocal_emotions tl ∈ tl ∧
      (∀ x ∈ tl, tl.count x ≤ tl.count (aggregate_vocal_emotions tl)) ∧
      (∀ x ∈ tl, tl.count x = tl.count (aggregate_vocal_emotions tl) →
        tl.indexOf (aggregate_vocal_emotions tl) ≤ tl.indexOf x)) ∧
    aggregate_vocal_emotions ["sad", "sad", "happy"] = "sad" := by
  refine ⟨rfl, ?_, by decide⟩
  intro tl htl
  obtain ⟨t, ts, rfl⟩ := List.exists_cons_of_ne_nil htl
  exact aggregate_cons_spec t ts

/-- Witness for C7: the theorem applied to the concrete non-empty timeline
sad, sad, happy. -/
theorem aggregate_vocal_most_frequent_witness :
    aggregate_vocal_emotions ["sad", "sad", "happy"] ∈ ["sad", "sad", "happy"] :=
  (aggregate_vocal_most_frequent.2.1 ["sad", "sad", "happy"] (by decide)).1

/-! ## Cardiovascular pipeline (`cardiovascular.py`) -/

/-- `np.mean` of a list of reals (the empty list gives 0/0 = 0, unused). -/
noncomputable def npMean (l : List ℝ) : ℝ := l.sum / l.length

/-- `np.diff`: successive differences `a[i+1] - a[i]`. -/
noncomputable def npDiff (l : List ℝ) : List ℝ := List.zipWith (fun a b => a - b) l.tail l

/-- `np.std`: population standard deviation. -/
noncomputable def npStd (l : List ℝ) : ℝ :=
  Real.sqrt (npMean (l.map (fun x => (x - npMean l) ^ 2)))

/-- `np.max` of a list (0 for the empty list, which the code never reaches). -/
noncomputable def npMax : List ℝ → ℝ
  | [] => 0
  | x :: xs => xs.foldl max x

/-- `np.min` of a list (0 for the empty list, which the code never reaches). -/
noncomputable def npMin : List ℝ → ℝ
  | [] => 0
  | x :: xs => xs.foldl min x

/-- The HRV metrics dictionary built by `calculate_hrv_metrics`. -/
structure HRVMetrics where
  sdnn : ℝ
  rmssd : ℝ
  pnn50 : ℝ
  mean_hr : ℝ
  max_hr : ℝ
  min_hr : ℝ
  hr_range : ℝ

/-- Translation of `calculate_hrv_metrics` (cardiovascular.py lines 27-48). -/
noncomputable def calculate_hrv_metrics (heart_rates : List ℝ) : Option HRVMetrics :=
  if heart_rates.length < 2 then none
  else
    let rr_intervals := heart_rates.map (fun h => 60000 / h)
    let successive_diffs := npDiff rr_intervals
    let nn50 := successive_diffs.countP (fun d => decide (|d| > 50))
    some {
      sdnn := npStd rr_intervals
      rmssd := Real.sqrt (npMean (successive_diffs.map (fun d => d ^ 2)))
      pnn50 := if successive_diffs.length > 0 then
          ((nn50 : ℝ) / successive_diffs.length) * 100 else 0
      mean_hr := npMean heart_rates
      max_hr := npMax heart_rates
      min_hr := npMin heart_rates
      hr_range := npMax heart_rates - npMin heart_rates }

/-- Rendering of a real number with one decimal digit, standing in for
Python "{:.1f}" string formatting inside the indicator strings (the exact
rounding mode of the float formatting is immaterial to every claim). -/
noncomputable def fmt1 (x : ℝ) : String :=
  let n : ℤ := round (x * 10)
  (if n < 0 then "-" else "") ++ toString (n.natAbs / 10) ++ "." ++ toString (n.natAbs % 10)

/-- The stress score, level and indicator strings accumulated by
`analyze_cardiovascular_stress`. -/
structure StressResult where
  score : ℕ
  level : String
  indicators : List String

/-- The stress-scoring block of `analyze_cardiovascular_stress`
(cardiovascular.py lines 64-88), factored out of the pipeline so it can be
stated on an arbitrary metrics record; the three signals accumulate in the
same order as in the source. -/
noncomputable def classifyStress (metrics : HRVMetrics) : StressResult :=
  let s1 : ℕ := if metrics.mean_hr > 90 then 3 else if metrics.mean_hr > 80 then 2 else 0
  let i1 : List String :=
    if metrics.mean_hr > 90 then ["Elevated mean HR (" ++ fmt1 metrics.mean_hr ++ " BPM)"] else []
  let s2 : ℕ := if metrics.rmssd < 15 then 3 else if metrics.rmssd < 25 then 2 else 0
  let i2 : List String :=
    if metrics.rmssd < 15 then ["Very low HRV (RMSSD: " ++ fmt1 metrics.rmssd ++ " ms)"] else []
  let s3 : ℕ := if metrics.sdnn < 40 then 2 else 0
  let i3 : List String :=
    if metrics.sdnn < 40 then ["Low SDNN (" ++ fmt1 metrics.sdnn ++ " ms)"] else []
  let stress_score := s1 + s2 + s3
  let stress_level :=
    if stress_score ≥ 7 then "High" else if stress_score ≥ 4 then "Moderate" else "Low"
  { score := stress_score, level := stress_level, indicators := i1 ++ i2 ++ i3 }

/-- A parsed tabular input, modelling the dataframe `pd.read_csv` returns:
column names paired with their cell values, a cell being `none` when it is
missing or non-numeric after coercion (`pd.to_numeric` with
errors="coerce"). -/
abbrev Table := List (String × List (Option ℝ))

/-- Column discovery of `load_heart_rate_data`: the exact name
"heart_rate" if present, else the first column whose lowered name contains
"heart" or "bpm". -/
def findHeartColumn (cols : Table) : Option (List (Option ℝ)) :=
  match List.lookup "heart_rate" cols with
  | some c => some c
  | none =>
    match cols.find? (fun kv =>
        containsWord (lowerStr kv.1) "heart" || containsWord (lowerStr kv.1) "bpm") with
    | some kv => some kv.2
    | none => none

/-- Translation of `load_heart_rate_data` (cardiovascular.py lines 5-24):
an unreadable file (input `none`) or a missing heart-rate column (the
KeyError raised by `dropna` on the absent column) is caught and yields
`none`; otherwise the rows that are missing or non-numeric are dropped. -/
def load_heart_rate_data (input : Option Table) : Option (List ℝ) :=
  match input with
  | none => none
  | some t =>
    match findHeartColumn t with
    | none => none
    | some c => some (c.filterMap id)

/-- The result dictionary of `analyze_cardiovascular_stress`. -/
structure CVResult where
  metrics : HRVMetrics
  stress_score : ℕ
  stress_level : String
  stress_indicators : List String
  data_points : ℕ

/-- Translation of `analyze_cardiovascular_stress` (cardiovascular.py
lines 51-96). -/
noncomputable def analyze_cardiovascular_stress (input : Option Table) : Option CVResult :=
  match load_heart_rate_data input with
  | none => none
  | some [] => none
  | some heart_rates =>
    match calculate_hrv_metrics heart_rates with
    | none => none
    | some metrics =>
      let s := classifyStress metrics
      some { metrics := metrics, stress_score := s.score, stress_level := s.level,
             stress_indicators := s.indicators, data_points := heart_rates.length }

/- Helper lemmas about foldl max / min. -/

lemma foldl_max_mem : ∀ (xs : List ℝ) (x : ℝ), xs.foldl max x = x ∨ xs.foldl max x ∈ xs := by
  intro xs
  induction xs with
  | nil => intro x; exact Or.inl rfl
  | cons y ys ih =>
    intro x
    rw [List.foldl_cons]
    rcases ih (max x y) with h | h
    · rw [h]
      rcases max_choice x y with h2 | h2
      · exact Or.inl h2
      · exact Or.inr (by rw [h2]; exact List.mem_cons_self y ys)
    · exact Or.inr (List.mem_cons_of_mem y h)

lemma le_foldl_max_init : ∀ (xs : List ℝ) (x : ℝ), x ≤ xs.foldl max x := by
  intro xs
  induction xs with
  | nil => intro x; exact le_refl x
  | cons y ys ih =>
    intro x
    rw [List.foldl_cons]
    exact le_trans (le_max_left x y) (ih (max x y))

lemma le_foldl_max_mem : ∀ (xs : List ℝ) (x y : ℝ), y ∈ xs → y ≤ xs.foldl max x := by
  intro xs
  induction xs with
  | nil => intro x y hy; exact absurd hy (List.not_mem_nil y)
  | cons a ys ih =>
    intro x y hy
    rw [List.foldl_cons]
    rcases List.mem_cons.mp hy with rfl | hy'
    · exact le_trans (le_max_right x y) (le_foldl_max_init ys (max x y))
    · exact ih (max x a) y hy'

lemma foldl_min_mem : ∀ (xs : List ℝ) (x : ℝ), xs.foldl min x = x ∨ xs.foldl min x ∈ xs := by
  intro xs
  induction xs with
  | nil => intro x; exact Or.inl rfl
  | cons y ys ih =>
    intro x
    rw [List.foldl_cons]
    rcases ih (min x y) with h | h
    · rw [h]
      rcases min_choice x y with h2 | h2
      · exact Or.inl h2
      · exact Or.inr (by rw [h2]; exact List.mem_cons_self y ys)
    · exact Or.inr (List.mem_cons_of_mem y h)

lemma foldl_min_le_init : ∀ (xs : List ℝ) (x : ℝ), xs.foldl min x ≤ x := by
  intro xs
  induction xs with
  | nil => intro x; exact le_refl x
  | cons y ys ih =>
    intro x
    rw [List.foldl_cons]
    exact le_trans (ih (min x y)) (min_le_left x y)

lemma foldl_min_le_mem : ∀ (xs : List ℝ) (x y : ℝ), y ∈ xs → xs.foldl min x ≤ y := by
  intro xs
  induction xs with
  | nil => intro x y hy; exact absurd hy (List.not_mem_nil y)
  | cons a ys ih =>
    intro x y hy
    rw [List.foldl_cons]
    rcases List.mem_cons.mp hy with rfl | hy'
    · exact le_trans (foldl_min_le_init ys (min x y)) (min_le_right x y)
    · exact ih (min x a) y hy'

lemma npMax_spec (l : List ℝ) (hl : l ≠ []) : npMax l ∈ l ∧ ∀ y ∈ l, y ≤ npMax l := by
  obtain ⟨a, t, rfl⟩ := List.exists_cons_of_ne_nil hl
  constructor
  · rcases foldl_max_mem t a with h | h
    · rw [npMax, h]; exact List.mem_cons_self a t
    · exact List.mem_cons_of_mem a (by rw [npMax]; exact h)
  · intro y hy
    rcases List.mem_cons.mp hy with rfl | hy'
    · exact le_foldl_max_init t y
    · exact le_foldl_max_mem t a y hy'

lemma npMin_spec (l : List ℝ) (hl : l ≠ []) : npMin l ∈ l ∧ ∀ y ∈ l, npMin l ≤ y := by
  obtain ⟨a, t, rfl⟩ := List.exists_cons_of_ne_nil hl
  constructor
  · rcases foldl_min_mem t a with h | h
    · rw [npMin, h]; exact List.mem_cons_self a t
    · exact List.mem_cons_of_mem a (by rw [npMin]; exact h)
  · intro y hy
    rcases List.mem_cons.mp hy with rfl | hy'
    · exact foldl_min_le_init t y
    · exact foldl_min_le_mem t a y hy'

/-- C4: `calculate_hrv_metrics` returns `none` for fewer than two samples;
for two or more samples it returns SDNN equal to the population standard
deviation of the rr-intervals 60000/h, RMSSD equal to the square root of
the mean squared successive rr difference, pNN50 equal to 100 times the
share of successive differences exceeding 50 in absolute value, and the
mean, maximum, minimum and range of the raw heart rates; consequently any
constant series of at least two positive samples yields RMSSD, SDNN and
pNN50 all zero. -/
theorem calculate_hrv_metrics_spec :
    (∀ heart_rates : List ℝ, heart_rates.length < 2 → calculate_hrv_metrics heart_rates = none) ∧
    (∀ (heart_rates : List ℝ) (m : HRVMetrics),
      calculate_hrv_metrics heart_rates = some m →
      2 ≤ heart_rates.length ∧
      m.sdnn = Real.sqrt
        (((heart_rates.map (fun h => 60000 / h)).map
            (fun x => (x - (heart_rates.map (fun h => 60000 / h)).sum /
              ((heart_rates.map (fun h => 60000 / h)).length : ℝ)) ^ 2)).sum /
          ((heart_rates.map (fun h => 60000 / h)).length : ℝ)) ∧
      m.rmssd = Real.sqrt
        (((npDiff (heart_rates.map (fun h => 60000 / h))).map (fun d => d ^ 2)).sum /
          ((npDiff (heart_rates.map (fun h => 60000 / h))).length : ℝ)) ∧
      m.pnn50 = 100 *
        (((npDiff (heart_rates.map (fun h => 60000 / h))).countP
            (fun d => decide (|d| > 50)) : ℕ) : ℝ) /
          ((npDiff (heart_rates.map (fun h => 60000 / h))).length : ℝ) ∧
      m.mean_hr = heart_rates.sum / (heart_rates.length : ℝ) ∧
      m.max_hr ∈ heart_rates ∧ (∀ y ∈ heart_rates, y ≤ m.max_hr) ∧
      m.min_hr ∈ heart_rates ∧ (∀ y ∈ heart_rates, m.min_hr ≤ y) ∧
      m.hr_range = m.max_hr - m.min_hr) ∧
    (∀ (c : ℝ) (n : ℕ), 0 < c → 2 ≤ n →
      ∃ m : HRVMetrics, calculate_hrv_metrics (List.replicate n c) = some m ∧
        m.rmssd = 0 ∧ m.sdnn = 0 ∧ m.pnn50 = 0) := by
  have part1 : ∀ heart_rates : List ℝ,
      heart_rates.length < 2 → calculate_hrv_metrics heart_rates = none := by
    intro hr hlen
    simp [calculate_hrv_metrics, hlen]
  have part2 : ∀ (heart_rates : List ℝ) (m : HRVMetrics),
      calculate_hrv_metrics heart_rates = some m →
      2 ≤ heart_rates.length ∧
      m.sdnn = Real.sqrt
        (((heart_rates.map (fun h => 60000 / h)).map
            (fun x => (x - (heart_rates.map (fun h => 60000 / h)).sum /
              ((heart_rates.map (fun h => 60000 / h)).length : ℝ)) ^ 2)).sum /
          ((heart_rates.map (fun h => 60000 / h)).length : ℝ)) ∧
      m.rmssd = Real.sqrt
        (((npDiff (heart_rates.map (fun h => 60000 / h))).map (fun d => d ^ 2)).sum /
          ((npDiff (heart_rates.map (fun h => 60000 / h))).length : ℝ)) ∧
      m.pnn50 = 100 *
        (((npDiff (heart_rates.map (fun h => 60000 / h))).countP
            (fun d => decide (|d| > 50)) : ℕ) : ℝ) /
          ((npDiff (heart_rates.map (fun h => 60000 / h))).length : ℝ) ∧
      m.mean_hr = heart_rates.sum / (heart_rates.length : ℝ) ∧
      m.max_hr ∈ heart_rates ∧ (∀ y ∈ heart_rates, y ≤ m.max_hr) ∧
      m.min_hr ∈ heart_rates ∧ (∀ y ∈ heart_rates, m.min_hr ≤ y) ∧
      m.hr_range = m.max_hr - m.min_hr := by
    intro hr m hm
    by_cases hlen : hr.length < 2
    · simp [calculate_hrv_metrics, hlen] at hm
    · simp only [calculate_hrv_metrics, hlen, if_false, Option.some.injEq] at hm
      subst hm
      have hne : hr ≠ [] := by
        intro h
        rw [h] at hlen
        simp at hlen
      obtain ⟨hmax, hmaxle⟩ := npMax_spec hr hne
      obtain ⟨hmin, hminle⟩ := npMin_spec hr hne
      have hdlen : 0 < (npDiff (hr.map (fun h => 60000 / h))).length := by
        simp only [npDiff, List.length_zipWith, List.length_tail, List.length_map]
        rw [min_eq_left (Nat.sub_le _ _)]
        omega
      refine ⟨by omega, ?_, ?_, ?_, ?_, hmax, hmaxle, hmin, hminle, rfl⟩
      · dsimp only
        simp [npStd, npMean, List.length_map]
      · dsimp only
        simp [npMean, List.length_map]
      · dsimp only
        rw [if_pos hdlen]
        ring
      · dsimp only
        simp [npMean]
  refine ⟨part1, part2, ?_⟩
  intro c n hc hn
  have hlen : ¬ (List.replicate n c).length < 2 := by
    simp only [List.length_replicate]
    omega
  have hnz : (n : ℝ) ≠ 0 := by positivity
  have hrr : (List.replicate n c).map (fun h => 60000 / h) =
      List.replicate n (60000 / c) := by
    simp [List.map_replicate]
  have hdiff : npDiff (List.replicate n (60000 / c)) = List.replicate (n - 1) 0 := by
    simp only [npDiff, List.tail_replicate, List.zipWith_replicate, sub_self]
    rw [min_eq_left (Nat.sub_le _ _)]
  obtain ⟨m, hm⟩ : ∃ m, calculate_hrv_metrics (List.replicate n c) = some m := by
    simp only [calculate_hrv_metrics, hlen, if_false]
    exact ⟨_, rfl⟩
  obtain ⟨hl2, hsdnn, hrmssd, hpnn, hmean, h6, h7, h8, h9, h10⟩ := part2 _ m hm
  have hv : (List.replicate n (60000 / c)).sum /
      ((List.replicate n (60000 / c)).length : ℝ) = 60000 / c := by
    simp only [List.sum_replicate, nsmul_eq_mul, List.length_replicate]
    field_simp
    ring
  refine ⟨m, hm, ?_, ?_, ?_⟩
  · rw [hrmssd, hrr, hdiff]
    simp
  · rw [hsdnn, hrr]
    simp only [hv]
    simp [List.map_replicate, sub_self, List.sum_replicate]
  · rw [hpnn, hrr, hdiff]
    have hcz : (List.replicate (n - 1) (0 : ℝ)).countP (fun d => decide (|d| > 50)) = 0 := by
      simp [List.countP_eq_zero, List.mem_replicate]
    rw [hcz]
    simp

/-- Witness for C4: the under-two-samples hypothesis discharged at the
empty and the one-element series. -/
theorem calculate_hrv_metrics_spec_witness :
    calculate_hrv_metrics [] = none ∧ calculate_hrv_metrics [60] = none :=
  ⟨calculate_hrv_metrics_spec.1 [] (by simp),
   calculate_hrv_metrics_spec.1 [60] (by simp)⟩

/-- C5: the stress score accumulates independently from the three signals
(mean HR above 90 adds 3 with an indicator, else above 80 adds 2 without
one; RMSSD below 15 adds 3 with an indicator, else below 25 adds 2 without
one; SDNN below 40 adds 2 with an indicator), the level is High at score 7
or more, Moderate at 4 to 6, else Low; the record with mean 95, RMSSD 10
and SDNN 30 scores 8, levels High and carries exactly three indicators. -/
theorem classifyStress_spec :
    (∀ m : HRVMetrics,
      (classifyStress m).score =
        (if m.mean_hr > 90 then 3 else if m.mean_hr > 80 then 2 else 0) +
        (if m.rmssd < 15 then 3 else if m.rmssd < 25 then 2 else 0) +
        (if m.sdnn < 40 then 2 else 0) ∧
      (classifyStress m).level =
        (if 7 ≤ (classifyStress m).score then "High"
         else if 4 ≤ (classifyStress m).score then "Moderate" else "Low") ∧
      (classifyStress m).indicators.length =
        (if m.mean_hr > 90 then 1 else 0) +
        (if m.rmssd < 15 then 1 else 0) +
        (if m.sdnn < 40 then 1 else 0)) ∧
    (classifyStress ⟨30, 10, 0, 95, 100, 90, 10⟩).score = 8 ∧
    (classifyStress ⟨30, 10, 0, 95, 100, 90, 10⟩).level = "High" ∧
    (classifyStress ⟨30, 10, 0, 95, 100, 90, 10⟩).indicators.length = 3 := by
  refine ⟨?_, ?_, ?_, ?_⟩
  · intro m
    refine ⟨rfl, rfl, ?_⟩
    by_cases h1 : m.mean_hr > 90 <;> by_cases h2 : m.rmssd < 15 <;>
      by_cases h3 : m.sdnn < 40 <;>
      simp [classifyStress, h1, h2, h3]
  · norm_num [classifyStress]
  · norm_num [classifyStress]
  · norm_num [classifyStress]

/-- C10: the stress score never exceeds 8 and is never exactly 1, and a
High level forces SDNN below 40, since the other two signals contribute at
most 6 together. -/
theorem classifyStress_invariants :
    ∀ m : HRVMetrics,
      (classifyStress m).score ≤ 8 ∧
      (classifyStress m).score ≠ 1 ∧
      ((classifyStress m).level = "High" → m.sdnn < 40) := by
  intro m
  by_cases h1 : m.mean_hr > 90 <;> by_cases h1b : m.mean_hr > 80 <;>
    by_cases h2 : m.rmssd < 15 <;> by_cases h2b : m.rmssd < 25 <;>
    by_cases h3 : m.sdnn < 40 <;>
    simp [classifyStress, h1, h1b, h2, h2b, h3]

/-- Witness for C10: the High-level hypothesis discharged at the concrete
record with mean 95, RMSSD 10 and SDNN 30. -/
theorem classifyStress_invariants_witness :
    (classifyStress ⟨30, 10, 0, 95, 100, 90, 10⟩).level = "High" ∧ (30 : ℝ) < 40 := by
  have hlev : (classifyStress ⟨30, 10, 0, 95, 100, 90, 10⟩).level = "High" := by
    norm_num [classifyStress]
  exact ⟨hlev, (classifyStress_invariants ⟨30, 10, 0, 95, 100, 90, 10⟩).2.2 hlev⟩

/-- C9: the cardiovascular analyzer returns an absent result for a missing
or unreadable file, for a table with no discoverable heart-rate column,
and for a table whose usable rows number fewer than two after dropping the
missing and non-numeric cells; exceptions are modelled by the `Option`
result, and the Lean functions are total, so no exception propagates. -/
theorem analyze_cardiovascular_absent :
    analyze_cardiovascular_stress none = none ∧
    (∀ t : Table,
      List.lookup "heart_rate" t = none →
      (∀ kv ∈ t, containsWord (lowerStr kv.1) "heart" = false ∧
        containsWord (lowerStr kv.1) "bpm" = false) →
      analyze_cardiovascular_stress (some t) = none) ∧
    (∀ (t : Table) (hrs : List ℝ), load_heart_rate_data (some t) = some hrs →
      hrs.length < 2 → analyze_cardiovascular_stress (some t) = none) := by
  refine ⟨rfl, ?_, ?_⟩
  · intro t h1 h2
    have hfind : t.find? (fun kv =>
        containsWord (lowerStr kv.1) "heart" || containsWord (lowerStr kv.1) "bpm") = none := by
      rw [List.find?_eq_none]
      intro kv hkv
      simp [(h2 kv hkv).1, (h2 kv hkv).2]
    simp [analyze_cardiovascular_stress, load_heart_rate_data, findHeartColumn, h1, hfind]
  · intro t hrs hload hlen
    match hrs, hlen with
    | [], _ =>
      simp [analyze_cardiovascular_stress, hload]
    | [a], _ =>
      simp [analyze_cardiovascular_stress, hload, calculate_hrv_metrics]

/-- Witness for C9: a table with only a "time" column, and a "heart_rate"
column whose single cell is missing. -/
theorem analyze_cardiovascular_absent_witness :
    analyze_cardiovascular_stress (some [("time", [some 1])]) = none ∧
    analyze_cardiovascular_stress (some [("heart_rate", [none])]) = none := by
  constructor
  · refine analyze_cardiovascular_absent.2.1 [("time", [some 1])] rfl ?_
    intro kv hkv
    have hk := List.mem_singleton.mp hkv
    subst hk
    exact ⟨rfl, rfl⟩
  · exact analyze_cardiovascular_absent.2.2 [("heart_rate", [none])] [] rfl (by norm_num)

/-! ## Recommendation report (`app.py`, `generate_recommendations`) -/

/-- Helper for `pyTitle`: the Boolean records whether the previous
character was alphabetic. -/
def titleChars : Bool → List Char → List Char
  | _, [] => []
  | prevAlpha, c :: cs =>
    if c.isAlpha then
      (if prevAlpha then c.toLower else c.toUpper) :: titleChars true cs
    else
      c :: titleChars false cs

/-- Python `str.title` for ASCII text, used on the emotion labels. -/
def pyTitle (s : String) : String := String.mk (titleChars false s.data)

/-- Rendering of a rational with two decimal digits, standing in for
Python "{:.2f}" formatting of the sentiment polarity (the exact rounding
mode of the float formatting is immaterial to every claim). -/
def fmt2 (q : ℚ) : String :=
  let n : ℤ := round (q * 100)
  (if n < 0 then "-" else "") ++ toString (n.natAbs / 100) ++ "." ++
    (if n.natAbs % 100 < 10 then "0" else "") ++ toString (n.natAbs % 100)

/-- The fields of the Assessment record that `generate_recommendations`
reads: the summed PHQ-9 total, the item-9 (self-harm) score, and the
optional per-modality summaries. -/
structure Assessment where
  phq9_total : ℤ
  phq9_q9 : ℤ
  facial_dominant_emotion : Option String
  vocal_dominant_emotion : Option String
  sentiment_polarity : Option ℚ

/-- First line of the crisis block (app.py line 571). -/
def crisisLine1 : String := "⚠️ You indicated thoughts of self-harm. This is serious."

/-- Second line of the crisis block (app.py line 572). -/
def crisisLine2 : String :=
  "Please reach out immediately to someone you trust or call a crisis helpline."

/-- The PHQ-9-based guidance block of `generate_recommendations` (app.py
lines 539-572): a four-way cascade on the total, whose last branch covers
every total of 15 or more and appends the crisis block when the item-9
score is at least 1. -/
def phq9_block (total q9 : ℤ) : List String :=
  if total ≤ 4 then
    ["✓ Your responses suggest minimal or no depression symptoms.",
     "Continue healthy habits: exercise, sleep (7-9 hours), social connections.",
     "Practice mindfulness and stress management techniques."]
  else if total ≤ 9 then
    ["Your responses indicate mild depression symptoms.",
     "Lifestyle modifications:",
     "  • Regular physical activity (30 min, 5 days/week)",
     "  • Consistent sleep schedule",
     "  • Balanced diet and hydration",
     "  • Social engagement",
     "Monitor symptoms. Consult professional if they persist beyond 2 weeks."]
  else if total ≤ 14 then
    ["⚠️ Your responses suggest moderate depression.",
     "We recommend consulting a mental health professional.",
     "Treatment options:",
     "  • Cognitive Behavioral Therapy (CBT)",
     "  • Counseling or psychotherapy",
     "  • Lifestyle modifications",
     "  • Consider medication evaluation if recommended"]
  else
    ["⚠️ IMPORTANT: Your responses indicate significant depression.",
     "Please seek professional help immediately:",
     "  • Contact a mental health professional",
     "  • Visit your primary care physician"] ++
    (if 1 ≤ q9 then ["", crisisLine1, crisisLine2] else [])

/-- The facial-emotion block (app.py lines 575-582); Python truthiness
makes both a missing and an empty label skip the block. -/
def facial_block (femo : Option String) : List String :=
  match femo with
  | none => []
  | some e =>
    if e = "" then []
    else
      ["", "--- Facial Expression Analysis ---",
       "Dominant emotion: " ++ pyTitle e] ++
      (if e ∈ ["sad", "angry", "fear", "disgust"] then
        ["Your facial expressions suggest emotional distress."] else [])

/-- The vocal-emotion block (app.py lines 584-590). -/
def vocal_block (vemo : Option String) : List String :=
  match vemo with
  | none => []
  | some e =>
    if e = "" then []
    else
      ["", "--- Voice Analysis ---", "Vocal emotion: " ++ pyTitle e] ++
      (if e ∈ ["sad", "angry", "fear"] then
        ["Your voice patterns indicate negative emotions."] else [])

/-- The language-sentiment block (app.py lines 592-600); only an absent
polarity skips it. -/
def sentiment_block (pol : Option ℚ) : List String :=
  match pol with
  | none => []
  | some p =>
    ["", "--- Language Analysis ---"] ++
    (if p < -0.3 then
      ["Your language shows negative sentiment (score: " ++ fmt2 p ++ ")",
       "Consider talking with someone you trust about your feelings."]
     else if p > 0.3 then
      ["Your language shows positive sentiment (score: " ++ fmt2 p ++ ")"]
     else [])

/-- The general wellness block (app.py lines 603-609), always appended. -/
def wellness_block : List String :=
  ["", "--- General Wellness Tips ---",
   "• Deep breathing exercises: 5-10 minutes daily",
   "• Limit caffeine and alcohol",
   "• Spend time in nature/sunlight",
   "• Journal your thoughts",
   "• Set small, achievable daily goals"]

/-- The full ordered list of recommendation lines built by
`generate_recommendations`. -/
def recommendation_lines (a : Assessment) : List String :=
  phq9_block a.phq9_total a.phq9_q9 ++ facial_block a.facial_dominant_emotion ++
  vocal_block a.vocal_dominant_emotion ++ sentiment_block a.sentiment_polarity ++
  wellness_block

/-- Translation of `generate_recommendations` (app.py lines 520-611):
the severity band and the newline-joined report. -/
def generate_recommendations (a : Assessment) : String × String :=
  (classify a.phq9_total, String.intercalate "\n" (recommendation_lines a))

/- A string that starts with one character cannot equal one that starts
with another; used to separate the dynamically built lines from the
crisis lines. -/

lemma string_data_append (s t : String) : (s ++ t).data = s.data ++ t.data := by
  cases s
  cases t
  rfl

lemma cons_append_head (p x : String) (c : Char) (h : p.data.head? = some c) :
    (p ++ x).data.head? = some c := by
  rw [string_data_append]
  rcases p with ⟨pd⟩
  cases pd with
  | nil => simp at h
  | cons a as => simpa using h

lemma append_ne (p x q : String) (c : Char) (hp : p.data.head? = some c)
    (hq : q.data.head? ≠ some c) : p ++ x ≠ q := by
  intro e
  apply hq
  rw [← e, cons_append_head p x c hp]

/- The crisis lines occur in no block other than the top guidance tier. -/

lemma crisis1_not_mem_facial (o : Option String) : crisisLine1 ∉ facial_block o := by
  intro h
  match o with
  | none => simp [facial_block] at h
  | some e =>
    by_cases he : e = ""
    · simp [facial_block, he] at h
    · simp only [facial_block, he, if_false] at h
      rcases List.mem_append.mp h with h1 | h2
      · simp only [List.mem_cons, List.not_mem_nil, or_false] at h1
        rcases h1 with h1 | h1 | h1
        · exact absurd h1 (by decide)
        · exact absurd h1 (by decide)
        · exact append_ne "Dominant emotion: " (pyTitle e) crisisLine1 'D' rfl
            (by decide) h1.symm
      · by_cases hneg : e ∈ ["sad", "angry", "fear", "disgust"]
        · simp only [hneg, if_true, List.mem_singleton] at h2
          exact absurd h2 (by decide)
        · simp [hneg] at h2

lemma crisis2_not_mem_facial (o : Option String) : crisisLine2 ∉ facial_block o := by
  intro h
  match o with
  | none => simp [facial_block] at h
  | some e =>
    by_cases he : e = ""
    · simp [facial_block, he] at h
    · simp only [facial_block, he, if_false] at h
      rcases List.mem_append.mp h with h1 | h2
      · simp only [List.mem_cons, List.not_mem_nil, or_false] at h1
        rcases h1 with h1 | h1 | h1
        · exact absurd h1 (by decide)
        · exact absurd h1 (by decide)
        · exact append_ne "Dominant emotion: " (pyTitle e) crisisLine2 'D' rfl
            (by decide) h1.symm
      · by_cases hneg : e ∈ ["sad", "angry", "fear", "disgust"]
        · simp only [hneg, if_true, List.mem_singleton] at h2
          exact absurd h2 (by decide)
        · simp [hneg] at h2

lemma crisis1_not_mem_vocal (o : Option String) : crisisLine1 ∉ vocal_block o := by
  intro h
  match o with
  | none => simp [vocal_block] at h
  | some e =>
    by_cases he : e = ""
    · simp [vocal_block, he] at h
    · simp only [vocal_block, he, if_false] at h
      rcases List.mem_append.mp h with h1 | h2
      · simp only [List.mem_cons, List.not_mem_nil, or_false] at h1
        rcases h1 with h1 | h1 | h1
        · exact absurd h1 (by decide)
        · exact absurd h1 (by decide)
        · exact append_ne "Vocal emotion: " (pyTitle e) crisisLine1 'V' rfl
            (by decide) h1.symm
      · by_cases hneg : e ∈ ["sad", "angry", "fear"]
        · simp only [hneg, if_true, List.mem_singleton] at h2
          exact absurd h2 (by decide)
        · simp [hneg] at h2

lemma crisis2_not_mem_vocal (o : Option String) : crisisLine2 ∉ vocal_block o := by
  intro h
  match o with
  | none => simp [vocal_block] at h
  | some e =>
    by_cases he : e = ""
    · simp [vocal_block, he] at h
    · simp only [vocal_block, he, if_false] at h
      rcases List.mem_append.mp h with h1 | h2
      · simp only [List.mem_cons, List.not_mem_nil, or_false] at h1
        rcases h1 with h1 | h1 | h1
        · exact absurd h1 (by decide)
        · exact absurd h1 (by decide)
        · exact append_ne "Vocal emotion: " (pyTitle e) crisisLine2 'V' rfl
            (by decide) h1.symm
      · by_cases hneg : e ∈ ["sad", "angry", "fear"]
        · simp only [hneg, if_true, List.mem_singleton] at h2
          exact absurd h2 (by decide)
        · simp [hneg] at h2

lemma crisis1_not_mem_sentiment (o : Option ℚ) : crisisLine1 ∉ sentiment_block o := by
  intro h
  match o with
  | none => simp [sentiment_block] at h
  | some p =>
    simp only [sentiment_block] at h
    rcases List.mem_append.mp h with h1 | h2
    · simp only [List.mem_cons, List.not_mem_nil, or_false] at h1
      rcases h1 with h1 | h1
      · exact absurd h1 (by decide)
      · exact absurd h1 (by decide)
    · by_cases hlt : p < -0.3
      · simp only [hlt, if_true, List.mem_cons, List.not_mem_nil, or_false] at h2
        rcases h2 with h2 | h2
        · exact append_ne "Your language shows negative sentiment (score: "
            (fmt2 p ++ ")") crisisLine1 'Y' rfl (by decide)
            (by rw [String.append_assoc] at h2; exact h2.symm)
        · exact absurd h2 (by decide)
      · by_cases hgt : p > 0.3
        · simp only [hlt, if_false, hgt, if_true, List.mem_singleton] at h2
          exact append_ne "Your language shows positive sentiment (score: "
            (fmt2 p ++ ")") crisisLine1 'Y' rfl (by decide)
            (by rw [String.append_assoc] at h2; exact h2.symm)
        · simp [hlt, hgt] at h2

lemma crisis2_not_mem_sentiment (o : Option ℚ) : crisisLine2 ∉ sentiment_block o := by
  intro h
  match o with
  | none => simp [sentiment_block] at h
  | some p =>
    simp only [sentiment_block] at h
    rcases List.mem_append.mp h with h1 | h2
    · simp only [List.mem_cons, List.not_mem_nil, or_false] at h1
      rcases h1 with h1 | h1
      · exact absurd h1 (by decide)
      · exact absurd h1 (by decide)
    · by_cases hlt : p < -0.3
      · simp only [hlt, if_true, List.mem_cons, List.not_mem_nil, or_false] at h2
        rcases h2 with h2 | h2
        · exact append_ne "Your language shows negative sentiment (score: "
            (fmt2 p ++ ")") crisisLine2 'Y' rfl (by decide)
            (by rw [String.append_assoc] at h2; exact h2.symm)
        · exact absurd h2 (by decide)
      · by_cases hgt : p > 0.3
        · simp only [hlt, if_false, hgt, if_true, List.mem_singleton] at h2
          exact append_ne "Your language shows positive sentiment (score: "
            (fmt2 p ++ ")") crisisLine2 'Y' rfl (by decide)
            (by rw [String.append_assoc] at h2; exact h2.symm)
        · simp [hlt, hgt] at h2

lemma crisis1_mem_phq9 (total q9 : ℤ) :
    crisisLine1 ∈ phq9_block total q9 ↔ (15 ≤ total ∧ 1 ≤ q9) := by
  unfold phq9_block
  split_ifs with h1 h2 h3 h4
  · constructor
    · intro h; exact absurd h (by decide)
    · intro h; omega
  · constructor
    · intro h; exact absurd h (by decide)
    · intro h; omega
  · constructor
    · intro h; exact absurd h (by decide)
    · intro h; omega
  · constructor
    · intro _; exact ⟨by omega, h4⟩
    · intro _
      refine List.mem_append_right _ ?_
      decide
  · constructor
    · intro h; exact absurd h (by decide)
    · intro h; omega

lemma crisis2_mem_phq9 (total q9 : ℤ) :
    crisisLine2 ∈ phq9_block total q9 ↔ (15 ≤ total ∧ 1 ≤ q9) := by
  unfold phq9_block
  split_ifs with h1 h2 h3 h4
  · constructor
    · intro h; exact absurd h (by decide)
    · intro h; omega
  · constructor
    · intro h; exact absurd h (by decide)
    · intro h; omega
  · constructor
    · intro h; exact absurd h (by decide)
    · intro h; omega
  · constructor
    · intro _; exact ⟨by omega, h4⟩
    · intro _
      refine List.mem_append_right _ ?_
      decide
  · constructor
    · intro h; exact absurd h (by decide)
    · intro h; omega

lemma classify_ge15 (total : ℤ) :
    (classify total = "Moderately Severe" ∨ classify total = "Severe") ↔ 15 ≤ total := by
  unfold classify
  split_ifs <;> simp <;> omega

/-- Counterexample for C3: an assessment with total 15 and item-9 score 1
is banded Moderately Severe, not Severe, yet its report contains both
crisis lines, because the crisis block lives in the final branch of a
four-way cascade that covers every total of 15 or more. -/
theorem crisis_block_counterexample :
    classify 15 = "Moderately Severe" ∧
    crisisLine1 ∈ recommendation_lines ⟨15, 1, none, none, none⟩ ∧
    crisisLine2 ∈ recommendation_lines ⟨15, 1, none, none, none⟩ := by decide

/-- C3 amended: the report contains the crisis block if and only if the
severity band is Moderately Severe or Severe (total of 15 or more) and
the item-9 self-harm score is at least 1. -/
theorem crisis_block_amended :
    ∀ a : Assessment,
      (crisisLine1 ∈ recommendation_lines a ∧ crisisLine2 ∈ recommendation_lines a) ↔
        ((classify a.phq9_total = "Moderately Severe" ∨ classify a.phq9_total = "Severe") ∧
          1 ≤ a.phq9_q9) := by
  intro a
  rw [classify_ge15]
  constructor
  · rintro ⟨h1, _⟩
    simp only [recommendation_lines, List.mem_append] at h1
    rcases h1 with ((((h | h) | h) | h) | h)
    · exact (crisis1_mem_phq9 _ _).mp h
    · exact absurd h (crisis1_not_mem_facial _)
    · exact absurd h (crisis1_not_mem_vocal _)
    · exact absurd h (crisis1_not_mem_sentiment _)
    · exact absurd h (by decide)
  · rintro ⟨h15, hq9⟩
    constructor
    · simp only [recommendation_lines, List.mem_append]
      exact Or.inl (Or.inl (Or.inl (Or.inl ((crisis1_mem_phq9 _ _).mpr ⟨h15, hq9⟩))))
    · simp only [recommendation_lines, List.mem_append]
      exact Or.inl (Or.inl (Or.inl (Or.inl ((crisis2_mem_phq9 _ _).mpr ⟨h15, hq9⟩))))

/-- Witness for C3 amended: the backward direction applied at a Severe
assessment with item-9 score 1. -/
theorem crisis_block_amended_witness :
    (crisisLine1 ∈ recommendation_lines ⟨20, 1, none, none, none⟩ ∧
      crisisLine2 ∈ recommendation_lines ⟨20, 1, none, none, none⟩) :=
  (crisis_block_amended ⟨20, 1, none, none, none⟩).mpr ⟨Or.inr (by decide), by decide⟩
